import Mathlib

/-!
Shallow embedding of the `imteek/opo` backend (three Python/Flask files:
`src/backend/tsne_service.py`, `src/backend/reference_data.py`,
`src/backend/app.py`).

Modelling conventions:
* Python runtime values occurring in records (JSON bodies and pandas CSV
  rows) are `PyVal`; Python floats are `PyFloat` (a finite rational, NaN,
  or a signed infinity).  No float arithmetic happens in this repository,
  only parsing, coercion and formatting, so rationals model the finite
  values exactly.
* The builtin `float(<str>)` string parser is an external collaborator; it
  is a parameter `parse : StrParse` of the functions that use it.
* `np.random.choice(n, k, replace=False)` is a parameter
  `choice : Nat -> Nat -> List Nat`; its library contract (length `k`,
  no duplicates, entries below `n`) is the predicate `ChoiceSpec`.
* `sklearn TSNE(...).fit_transform` is a parameter `tsneFn : TsneFn`
  returning `Except` (a raised exception becomes `.error`).
* The filesystem (`os.listdir`, `os.path.exists`, `pd.read_csv`) is an
  environment `FsEnv`; `readCsv` is keyed by the same path string the
  Python code passes to `pd.read_csv` (for the reference-data service the
  bare file name, the directory prefix being common to every call).
* Flask handlers become pure functions from (environment, cache, request)
  to an outcome carrying the HTTP status, the JSON body, the cache after
  the call, and whether the projection routine was invoked.
-/

namespace Opo

/-- A Python value as it can appear in a decoded JSON object or in a row
produced by `pandas.DataFrame.to_dict('records')`. -/
inductive PyVal where
  | pnone
  | pbool (b : Bool)
  | pint (n : ℤ)
  | pfin (q : ℚ)
  | pnan
  | pinf (pos : Bool)
  | pstr (s : String)
deriving DecidableEq

/-- A Python float: finite (modelled exactly as a rational), NaN, or a
signed infinity. -/
inductive PyFloat where
  | finite (q : ℚ)
  | nan
  | inf (pos : Bool)
deriving DecidableEq

/-- A Python dict with string keys, as an association list (Python dict
keys are unique; lookup takes the first match). -/
abbrev Record := List (String × PyVal)

/-- `d.get(k)` on a Python dict. -/
def assocGet {α : Type} (l : List (String × α)) (k : String) : Option α :=
  (l.find? (fun p => p.1 == k)).map (fun p => p.2)

/-- Python `str(value)` for the values that can reach an f-string here.
Exact for `None`, booleans, integers and strings (the identifier kinds a
JSON body produces for `PTR_SEQUENCE_NUM`); float rendering follows
Python for integral floats (`str(42.0) = "42.0"`) and is a stand-in for
non-integral ones, which no endpoint behaviour in this file depends on. -/
def pyStr : PyVal → String
  | .pnone => "None"
  | .pbool b => if b then "True" else "False"
  | .pint n => toString n
  | .pfin q => if q.den = 1 then toString q.num ++ ".0" else toString q
  | .pnan => "nan"
  | .pinf b => if b then "inf" else "-inf"
  | .pstr s => s

/-- The outcome of Python's `float(<string>)`: `none` models a raised
`ValueError`.  The concrete parser is an external builtin, so it is kept
abstract as a parameter of this type. -/
abbrev StrParse := String → Option PyFloat

/-- Python `float(value)` on a `PyVal`; `none` models a raised
`ValueError`/`TypeError` (as for `float(None)`).  This is the fragment
in which every failure belongs to the `ValueError`/`TypeError` class the
coercion loop catches; `pyFloatX` below is the faithful refinement that
additionally models CPython's `OverflowError` on integers beyond
IEEE-double range, which that loop does not catch. -/
def pyFloat (parse : StrParse) : PyVal → Option PyFloat
  | .pnone => Option.none
  | .pbool b => some (.finite (if b then 1 else 0))
  | .pint n => some (.finite (n : ℚ))
  | .pfin q => some (.finite q)
  | .pnan => some .nan
  | .pinf b => some (.inf b)
  | .pstr s => parse s

/-- One field of the per-record coercion loop of `generate_tsne`
(tsne_service.py lines 41-48 and 54-60): `value = record.get(feature, 0)`
followed by `float(value)` with any `ValueError`/`TypeError` mapped to
`0`. -/
def coerceField (parse : StrParse) (r : Record) (f : String) : PyFloat :=
  match assocGet r f with
  | Option.none => .finite 0
  | some v => (pyFloat parse v).getD (.finite 0)

/-- CPython's overflow threshold for `float(<int>)`: the conversion
raises `OverflowError` exactly when the magnitude rounds beyond the
largest finite IEEE double, i.e. when `|n| >= 2^1024 - 2^970` (the
digits below; `intOverflowBound_eq` proves the identity).
`float(2^1024 - 2^970 - 1)` succeeds, `float(2^1024 - 2^970)` raises. -/
def intOverflowBound : ℕ :=
  179769313486231580793728971405303415079934132710037826936173778980444968292764750946649017977587207096330286416692887910946555547851940402630657488671505820681908902000708383676273854845817711531764475730270069855571366959622842914819860834936475292719074168444365510704342711559699508093042880177904174497792

/-- The integer `10^400` (digits below, identity in `hugeInt_eq`): a
JSON body like `{"KDPI": 10^400}` decodes to a Python `int` of this
size, and `float()` on it raises `OverflowError`. -/
def hugeInt : ℤ :=
  10000000000000000000000000000000000000000000000000000000000000000000000000000000000000000000000000000000000000000000000000000000000000000000000000000000000000000000000000000000000000000000000000000000000000000000000000000000000000000000000000000000000000000000000000000000000000000000000000000000000000000000000000000000000000000000000000000000000000000000000000000000000000000000000000000000000000000

/-- The exception classes a `float(value)` call can raise in this code:
`ValueError`/`TypeError` are caught by the coercion loop's
`except (ValueError, TypeError)` (tsne_service.py lines 46 and 58);
`OverflowError` is not and propagates to the route-level handler. -/
inductive PyErr where
  | caught
  | overflow
deriving DecidableEq

/-- Python `float(value)` with the exception class explicit: the
faithful version of `pyFloat`, additionally modelling CPython's
`OverflowError` on integers beyond IEEE-double range.  String parsing
never overflows (`float("1e999")` returns `inf`), booleans and floats
convert without error, `float(None)` raises `TypeError`. -/
def pyFloatX (parse : StrParse) : PyVal → Except PyErr PyFloat
  | .pnone => .error .caught
  | .pbool b => .ok (.finite (if b then 1 else 0))
  | .pint n => if intOverflowBound ≤ n.natAbs then .error .overflow
               else .ok (.finite (n : ℚ))
  | .pfin q => .ok (.finite q)
  | .pnan => .ok .nan
  | .pinf b => .ok (.inf b)
  | .pstr s =>
    match parse s with
    | some v => .ok v
    | Option.none => .error .caught

/-- `str(OverflowError)` as CPython raises it from `float(<huge int>)`. -/
def overflowMsg : String := "int too large to convert to float"

/-- One field of the coercion loop with the uncaught path explicit:
`value = record.get(feature, 0)`, then `float(value)` where a raised
`ValueError`/`TypeError` is caught and coerced to `0` while a raised
`OverflowError` escapes the `except (ValueError, TypeError)` clause and
propagates (`.error`) to the route-level `except Exception`, which
answers 500. -/
def coerceFieldX (parse : StrParse) (r : Record) (f : String) : Except String PyFloat :=
  match assocGet r f with
  | Option.none => .ok (.finite 0)
  | some v =>
    match pyFloatX parse v with
    | .ok x => .ok x
    | .error .caught => .ok (.finite 0)
    | .error .overflow => .error overflowMsg

/-- The feature-vector loop of `generate_tsne` with the uncaught
`OverflowError` path: fields are coerced left to right and the first
raising field aborts the row. -/
def rawRowX (parse : StrParse) (r : Record) : List String → Except String (List PyFloat)
  | [] => .ok []
  | f :: fs =>
    match coerceFieldX parse r f with
    | .error e => .error e
    | .ok x =>
      match rawRowX parse r fs with
      | .error e => .error e
      | .ok xs => .ok (x :: xs)

/-- `sys.float_info.max`, the finite value `np.nan_to_num` substitutes
for `+inf`. -/
def maxFloatQ : ℚ := (17976931348623157 : ℚ) * 10 ^ 292

/-- `np.nan_to_num` on one entry: NaN becomes `0`, positive and negative
infinity become the largest-magnitude finite floats, finite values pass
through. -/
def nanToNum : PyFloat → ℚ
  | .finite q => q
  | .nan => 0
  | .inf true => maxFloatQ
  | .inf false => -maxFloatQ

/-- The feature vector of one record before `np.nan_to_num`
(tsne_service.py lines 40-61). -/
def rawRow (parse : StrParse) (features : List String) (r : Record) : List PyFloat :=
  features.map (coerceField parse r)

/-- `np.nan_to_num` over a whole matrix (tsne_service.py line 70). -/
def nanToNumMatrix (m : List (List PyFloat)) : List (List ℚ) :=
  m.map (List.map nanToNum)

/-- The assembled numeric matrix `X_np` of `generate_tsne` (lines 63-70):
the target's vector prepended to the comparison vectors, then
`np.nan_to_num`. -/
def assembledMatrix (parse : StrParse) (features : List String)
    (target : Record) (data : List Record) : List (List ℚ) :=
  nanToNumMatrix (rawRow parse features target :: data.map (rawRow parse features))

/-- `max_points` (tsne_service.py line 73). -/
def maxPoints : ℕ := 5000

/-- Numpy fancy indexing `X_np[indices]` on a row list (all indices
produced by the sampling step are in range, so the default is never
read). -/
def selectRows (m : List (List ℚ)) (idx : List ℕ) : List (List ℚ) :=
  idx.map (fun i => m.getD i [])

/-- The sampling step of `generate_tsne` (tsne_service.py lines 72-79):
when more than `max_points` rows are present, draw
`min(max_points - 1, len - 1)` indices from `range(len - 1)` without
replacement via `choice`, shift them by `+1` onto the comparison rows,
prepend index `0` (the target row), and index the matrix. -/
def samplingStep (choice : ℕ → ℕ → List ℕ) (m : List (List ℚ)) : List (List ℚ) :=
  if m.length > maxPoints then
    let drawn := (choice (m.length - 1) (min (maxPoints - 1) (m.length - 1))).map (fun i => i + 1)
    selectRows m (0 :: drawn)
  else m

/-- The library contract of `np.random.choice(n, k, replace=False)`:
`k` distinct indices below `n` (its uniform distribution is a property of
the library's randomness, outside a functional embedding). -/
def ChoiceSpec (choice : ℕ → ℕ → List ℕ) : Prop :=
  ∀ n k, k ≤ n →
    (choice n k).length = k ∧ (choice n k).Nodup ∧ ∀ i ∈ choice n k, i < n

/-- The keyword arguments of the `TSNE(...)` constructor call
(tsne_service.py lines 85-86). -/
structure TsneParams where
  nComponents : ℕ
  perplexity : ℕ
  randomState : ℕ
  nIter : ℕ
deriving DecidableEq

/-- `sklearn.manifold.TSNE(...).fit_transform`, abstract: given the
constructor parameters and the input matrix, either a list of 2D points
or a raised exception. -/
abbrev TsneFn := TsneParams → List (List ℚ) → Except String (List (ℚ × ℚ))

/-- The parameters `generate_tsne` constructs for a matrix of `n` rows
(tsne_service.py lines 82-86): 2 components, perplexity
`min(30, n - 1)`, `random_state=42`, `n_iter=1000`. -/
def tsneParamsFor (n : ℕ) : TsneParams :=
  ⟨2, min 30 (n - 1), 42, 1000⟩

/-- The filesystem as the two services observe it. -/
structure FsEnv where
  listDir : Except String (List String)
  pathExists : String → Bool
  readCsv : String → Except String (List Record)

/-- `feature_map` of `get_important_features` (tsne_service.py lines
111-130), transcribed verbatim. -/
def feature_map : List (String × List String) :=
  [("Baltimore",
    ["PTR_SEQUENCE_NUM", "CREAT_DON", "DAYSQAIT_ALLOC", "time_on_analysis", "KDPI",
     "AGE_DON", "HGT_CM_CALC", "MICRO_FAT_LI_DON", "BUN_DON", "DIURETICS_N",
     "KIL_BACK_TBL_FLUSH", "INIT_EPTS", "DAYSWAIT_CHRON", "NUM_ORG_DISC", "END_CPRA",
     "PO2_DON", "KIP_REASON_CD", "time_since_gfr_less_than_20", "REGION_IDENTICAL", "LENGTH_LEFT_LUNG"]),
   ("Boston",
    ["PTR_SEQUENCE_NUM", "time_on_dialysis", "DAYSWAIT_ALLOC", "KDPI", "PUMP_KI_N",
     "KIR_FINAL_FLUSH", "KIR_REASON_CD", "time_since_gfr_less_than_20", "DAYSWAIT_CHRON",
     "LENGTH_LEFT_LUNG", "AGE_DON", "PO2_DON", "CREAT_DON", "WGT_KG_DON_CALC", "BMI_DON_CALC",
     "INIT_EPTS", "BUN_DON", "CREAT_TRR", "PRI_PAYMENT_TRR_KI", "PH_DON"]),
   ("LA",
    ["PTR_SEQUENCE_NUM", "DAYSWAIT_ALLOC", "time_on_dialysis", "KDPI", "KIR_REASON_CD",
     "CREAT_DON", "CREAT_TRR", "C1_0", "NUM_ORG_DISC", "LENGTH_LEFT_LUNG", "SEPTAL_WALL",
     "CARDARREST_DOWNTM_DURATION", "BMI_CALC", "DAYSWAIT_CHRON", "SHARE_TY_Local", "PH_DON",
     "HGT_CM_CALC", "INIT_EPTS", "AGE_DON", "MEETS_DBL_KI_CRITERIA"])]

/-- `get_important_features` (tsne_service.py lines 109-131):
`feature_map.get(city, [])`. -/
def get_important_features (city : String) : List String :=
  (assocGet feature_map city).getD []

/-- `city_file_map` of `load_city_data` (tsne_service.py lines 137-141). -/
def city_file_map : List (String × String) :=
  [("Baltimore", "data/baltimore_reference.csv"),
   ("LA", "data/la_reference.csv"),
   ("Boston", "data/boston_reference.csv")]

/-- `load_city_data` (tsne_service.py lines 133-166): unmapped city,
missing file, and any read/parse failure all return `[]` (the body is
wrapped in `try/except` returning `[]`), so the function is total. -/
def load_city_data (env : FsEnv) (city : String) : List Record :=
  match assocGet city_file_map city with
  | Option.none => []
  | some p =>
    if env.pathExists p = false then []
    else
      match env.readCsv p with
      | .error _ => []
      | .ok rs => rs

/-- The JSON body of a `/api/tsne/<city>` response. -/
inductive TsneBody where
  | ok (coordinates : List (ℚ × ℚ)) (recordId : PyVal)
  | err (msg : String)
deriving DecidableEq

/-- The observable outcome of one call to the projection handler:
HTTP status, JSON body, the cache after the call, and whether
`fit_transform` was invoked. -/
structure TsneOutcome where
  status : ℕ
  body : TsneBody
  cache : List (String × TsneBody)
  invoked : Bool
deriving DecidableEq

/-- `record_id = target_record.get('PTR_SEQUENCE_NUM', 'unknown')`
(tsne_service.py line 18). -/
def record_id_of (tr : Record) : PyVal :=
  (assocGet tr "PTR_SEQUENCE_NUM").getD (.pstr "unknown")

/-- `cache_key = f"{city}_{record_id}"` (tsne_service.py line 21). -/
def cache_key (city : String) (tr : Record) : String :=
  city ++ "_" ++ pyStr (record_id_of tr)

/-- `str(AttributeError)` raised by `None.get(...)` at tsne_service.py
line 18 when the body has no usable `targetRecord` dict. -/
def noneGetMsg : String := "\x27NoneType\x27 object has no attribute \x27get\x27"

/-- `generate_tsne` (tsne_service.py lines 13-107).  `targetRecord` is
`data.get('targetRecord')`: `none` models an absent key, a JSON `null`,
or any non-dict value, all of which make line 18 raise `AttributeError`,
caught by the handler's `except` as a 500.  Control flow in order:
cache lookup, feature selection, data load, empty-data 404, matrix
assembly, `nan_to_num`, sampling, TSNE (a raised exception becomes a
500), response construction and cache store. -/
def generate_tsne (parse : StrParse) (choice : ℕ → ℕ → List ℕ) (tsneFn : TsneFn)
    (env : FsEnv) (cache : List (String × TsneBody))
    (city : String) (targetRecord : Option Record) : TsneOutcome :=
  match targetRecord with
  | Option.none => ⟨500, .err noneGetMsg, cache, false⟩
  | some tr =>
    match assocGet cache (cache_key city tr) with
    | some body => ⟨200, body, cache, false⟩
    | Option.none =>
      let features := get_important_features city
      let cityData := load_city_data env city
      if cityData.isEmpty then
        ⟨404, .err ("No data available for " ++ city), cache, false⟩
      else
        let m := samplingStep choice (assembledMatrix parse features tr cityData)
        match tsneFn (tsneParamsFor m.length) m with
        | .error e => ⟨500, .err e, cache, true⟩
        | .ok coords =>
          ⟨200, .ok coords (record_id_of tr),
           (cache_key city tr, TsneBody.ok coords (record_id_of tr)) :: cache, true⟩

/-- `file_mapping` of `get_reference_data` (reference_data.py lines
14-18). -/
def file_mapping : List (String × String) :=
  [("Baltimore", "baltimore_reference.csv"),
   ("Boston", "boston_reference.csv"),
   ("LA", "la_reference.csv")]

/-- Python's substring test `needle in hay` on strings. -/
def strContains (hay needle : String) : Bool :=
  needle.isEmpty || (hay.splitOn needle).length > 1

/-- The fallback loop of `get_reference_data` (reference_data.py lines
36-40): the first listed file whose lowercased name contains the
lowercased city and ends in `.csv`. -/
def findMatchingFile (city : String) (files : List String) : Option String :=
  files.find? (fun f => strContains f.toLower city.toLower && f.toLower.endsWith ".csv")

/-- File-name resolution of `get_reference_data` (reference_data.py lines
32-43): the static mapping, then the substring fallback when the mapped
name is absent from the listing or the city is unmapped.  When the city
is mapped, its file is not listed, and the fallback finds nothing, the
stale mapped name is kept (`file_name` stays truthy), so resolution
still succeeds and the subsequent read is attempted. -/
def resolveFileName (city : String) (files : List String) : Option String :=
  match assocGet file_mapping city with
  | some name =>
    if files.contains name then some name
    else
      match findMatchingFile city files with
      | some f => some f
      | Option.none => some name
  | Option.none => findMatchingFile city files

/-- The JSON body of a `/api/reference-data/<city>` response. -/
inductive RefBody where
  | rows (rs : List Record)
  | err (msg : String)
deriving DecidableEq

/-- `get_reference_data` (reference_data.py lines 11-67): list the data
directory (failure is a 500), resolve a file name (no name is a 404),
read it (failure is a 500, success returns the rows). -/
def get_reference_data (env : FsEnv) (city : String) : ℕ × RefBody :=
  match env.listDir with
  | .error e => (500, .err ("Error listing files: " ++ e))
  | .ok files =>
    match resolveFileName city files with
    | Option.none => (404, .err ("Reference data file not found for " ++ city))
    | some name =>
      match env.readCsv name with
      | .ok rs => (200, .rows rs)
      | .error e => (500, .err ("Failed to read reference data: " ++ e))


/-- The feature vector a record contributes to the matrix TSNE sees:
the coercion loop followed by `np.nan_to_num`.  The codomain `ℚ` makes
every entry a finite number by construction. -/
def finalRow (parse : StrParse) (features : List String) (r : Record) : List ℚ :=
  (rawRow parse features r).map nanToNum

/-- The matrix actually handed to `fit_transform` by a computing request:
assembly over the selected features and loaded data, then the sampling
step. -/
def tsneMatrix (parse : StrParse) (choice : ℕ → ℕ → List ℕ) (env : FsEnv)
    (city : String) (tr : Record) : List (List ℚ) :=
  samplingStep choice
    (assembledMatrix parse (get_important_features city) tr (load_city_data env city))

/-! Concrete instantiations of the abstract collaborators, used by the
closed counterexamples and witnesses below. -/

/-- A string parser on which `float(<str>)` always raises. -/
def parse0 : StrParse := fun _ => Option.none

/-- A string parser accepting exactly the example's numerals. -/
def parseEx : StrParse := fun s =>
  if s = "1.2" then some (.finite (6 / 5))
  else if s = "55" then some (.finite 55)
  else Option.none

/-- A sampler drawing the first `k` indices; it satisfies `ChoiceSpec`. -/
def choice0 : ℕ → ℕ → List ℕ := fun _ k => List.range k

/-- A projection returning the origin for every row: one output point per
input row, never raising. -/
def tsne0 : TsneFn := fun _ m => .ok (m.map (fun _ => ((0 : ℚ), (0 : ℚ))))

/-- One comparison row as `pd.read_csv(...).to_dict('records')` yields it. -/
def rowRec : Record := [("AGE_DON", PyVal.pint 50)]

/-- A filesystem with an empty data directory where every read raises. -/
def envEmptyDir : FsEnv :=
  ⟨.ok [], fun _ => false, fun _ => .error "FileNotFoundError"⟩

/-- A filesystem holding a one-row Baltimore dataset. -/
def envOneRec : FsEnv :=
  ⟨.ok ["baltimore_reference.csv"],
   fun p => p == "data/baltimore_reference.csv",
   fun p => if p == "data/baltimore_reference.csv" then .ok [rowRec]
            else .error "FileNotFoundError"⟩

/-- A filesystem holding a ten-row Baltimore dataset. -/
def envTenRec : FsEnv :=
  ⟨.ok ["baltimore_reference.csv"],
   fun p => p == "data/baltimore_reference.csv",
   fun p => if p == "data/baltimore_reference.csv" then .ok (List.replicate 10 rowRec)
            else .error "FileNotFoundError"⟩

/-- A filesystem where the Baltimore file exists but reading it raises
(for example a malformed CSV). -/
def envReadErr : FsEnv :=
  ⟨.ok [], fun p => p == "data/baltimore_reference.csv", fun _ => .error "ParserError"⟩

/-- A target whose identifier is the string `"x_y"`. -/
def trXY : Record := [("PTR_SEQUENCE_NUM", PyVal.pstr "x_y")]

/-- A target whose identifier is the string `"y"`, with other fields
different from `trXY`. -/
def trY : Record := [("PTR_SEQUENCE_NUM", PyVal.pstr "y"), ("AGE_DON", PyVal.pint 999)]

/-- The spec's example target
`{"PTR_SEQUENCE_NUM": 42, "CREAT_DON": "1.2", "AGE_DON": "55"}`. -/
def trExample : Record :=
  [("PTR_SEQUENCE_NUM", PyVal.pint 42), ("CREAT_DON", PyVal.pstr "1.2"),
   ("AGE_DON", PyVal.pstr "55")]

/-- A target with no `PTR_SEQUENCE_NUM` field. -/
def trNoId : Record := [("CREAT_DON", PyVal.pstr "1.2")]

/-- Another identifier-less target, with different field values. -/
def trNoId2 : Record := [("AGE_DON", PyVal.pint 7)]

/-- First request of the key-collision scenario: city `Baltimore`,
identifier `"x_y"`, empty cache. -/
def collideCall1 : TsneOutcome :=
  generate_tsne parse0 choice0 tsne0 envOneRec [] "Baltimore" (some trXY)

/-- Second request of the key-collision scenario: the distinct pair
city `Baltimore_x`, identifier `"y"`, against the cache left by
`collideCall1`. -/
def collideCall2 : TsneOutcome :=
  generate_tsne parse0 choice0 tsne0 envOneRec collideCall1.cache "Baltimore_x" (some trY)

/-- Feature list probing every coercion failure mode. -/
def fsProbe : List String := ["A", "B", "C", "D"]

/-- Record probing the failure modes: `A` missing, `B` null, `C` a
non-numeric string, `D` a NaN. -/
def recProbe : Record :=
  [("B", PyVal.pnone), ("C", PyVal.pstr "oops"), ("D", PyVal.pnan)]

/-- A target whose `KDPI` field is the out-of-range integer `10^400`. -/
def trHuge : Record := [("KDPI", PyVal.pint hugeInt)]

/-- A one-entry cache holding a result under key `Baltimore_42`. -/
def cacheHit : List (String × TsneBody) :=
  [("Baltimore_42", TsneBody.ok [((1 : ℚ), (2 : ℚ))] (PyVal.pint 42))]

/-- The coordinates `tsne0` produces for the identifier-less Baltimore
request of the C9 witness. -/
def c9coords : List (ℚ × ℚ) :=
  (tsneMatrix parse0 choice0 envOneRec "Baltimore" trNoId).map (fun _ => ((0 : ℚ), (0 : ℚ)))

lemma assembledMatrix_eq (parse : StrParse) (features : List String)
    (target : Record) (data : List Record) :
    assembledMatrix parse features target data
      = finalRow parse features target :: data.map (finalRow parse features) := by
  simp [assembledMatrix, nanToNumMatrix, finalRow]

lemma generate_tsne_hit (parse : StrParse) (choice : ℕ → ℕ → List ℕ) (tsneFn : TsneFn)
    (env : FsEnv) (cache : List (String × TsneBody)) (city : String) (tr : Record)
    (b : TsneBody) (hhit : assocGet cache (cache_key city tr) = some b) :
    generate_tsne parse choice tsneFn env cache city (some tr) = ⟨200, b, cache, false⟩ := by
  unfold generate_tsne
  simp [hhit]

lemma generate_tsne_empty (parse : StrParse) (choice : ℕ → ℕ → List ℕ) (tsneFn : TsneFn)
    (env : FsEnv) (cache : List (String × TsneBody)) (city : String) (tr : Record)
    (hmiss : assocGet cache (cache_key city tr) = Option.none)
    (hdata : (load_city_data env city).isEmpty = true) :
    generate_tsne parse choice tsneFn env cache city (some tr)
      = ⟨404, .err ("No data available for " ++ city), cache, false⟩ := by
  unfold generate_tsne
  simp [hmiss, hdata]

lemma generate_tsne_miss (parse : StrParse) (choice : ℕ → ℕ → List ℕ) (tsneFn : TsneFn)
    (env : FsEnv) (cache : List (String × TsneBody)) (city : String) (tr : Record)
    (hmiss : assocGet cache (cache_key city tr) = Option.none)
    (hdata : (load_city_data env city).isEmpty = false) :
    generate_tsne parse choice tsneFn env cache city (some tr)
      = match tsneFn (tsneParamsFor (tsneMatrix parse choice env city tr).length)
              (tsneMatrix parse choice env city tr) with
        | .error e => ⟨500, .err e, cache, true⟩
        | .ok coords => ⟨200, .ok coords (record_id_of tr),
            (cache_key city tr, TsneBody.ok coords (record_id_of tr)) :: cache, true⟩ := by
  unfold generate_tsne
  simp [hmiss, hdata, tsneMatrix]

lemma sampling_noop (choice : ℕ → ℕ → List ℕ) (m : List (List ℚ))
    (h : m.length ≤ maxPoints) : samplingStep choice m = m := by
  simp [samplingStep, Nat.not_lt.mpr h]

lemma sampling_head (choice : ℕ → ℕ → List ℕ) (m : List (List ℚ)) (hne : m ≠ []) :
    (samplingStep choice m).head? = m.head? := by
  unfold samplingStep
  by_cases h : m.length > maxPoints
  · simp only [h, if_true, selectRows, List.map_cons, List.head?_cons]
    cases m with
    | nil => exact absurd rfl hne
    | cons a l => simp
  · simp [h]

lemma assocGet_eq_none {α : Type} (l : List (String × α)) (k : String)
    (h : ∀ p ∈ l, p.1 ≠ k) : assocGet l k = Option.none := by
  unfold assocGet
  rw [List.find?_eq_none.mpr]
  · rfl
  · intro p hp
    simpa using h p hp

lemma assocGet_cons_eq {α : Type} (l : List (String × α)) (k k' : String) (b : α)
    (h : k' = k) : assocGet ((k, b) :: l) k' = some b := by
  simp [assocGet, List.find?_cons, h]

lemma intOverflowBound_eq : intOverflowBound = 2 ^ 1024 - 2 ^ 970 := by
  norm_num [intOverflowBound]

lemma hugeInt_eq : hugeInt = 10 ^ 400 := by
  norm_num [hugeInt]

lemma assocGet_some_mem {α : Type} (l : List (String × α)) (k : String) (v : α)
    (h : assocGet l k = some v) : ∃ p ∈ l, p.2 = v := by
  unfold assocGet at h
  cases hf : l.find? (fun p => p.1 == k) with
  | none => rw [hf] at h; cases h
  | some pr =>
    rw [hf] at h
    simp only [Option.map_some', Option.some.injEq] at h
    exact ⟨pr, List.mem_of_find?_eq_some hf, h⟩

lemma coerceFieldX_eq_ok (parse : StrParse) (r : Record) (f : String)
    (hf : ∀ n, assocGet r f = some (PyVal.pint n) → n.natAbs < intOverflowBound) :
    coerceFieldX parse r f = .ok (coerceField parse r f) := by
  unfold coerceFieldX coerceField
  cases hv : assocGet r f with
  | none => rfl
  | some v =>
    cases v with
    | pint n =>
      have hlt := hf n hv
      simp [pyFloatX, pyFloat, Nat.not_le.mpr hlt]
    | pnone => simp [pyFloatX, pyFloat]
    | pbool b => simp [pyFloatX, pyFloat]
    | pfin q => simp [pyFloatX, pyFloat]
    | pnan => simp [pyFloatX, pyFloat]
    | pinf b => simp [pyFloatX, pyFloat]
    | pstr sv =>
      cases hp : parse sv with
      | none => simp [pyFloatX, pyFloat, hp]
      | some x => simp [pyFloatX, pyFloat, hp]

lemma rawRowX_eq_ok (parse : StrParse) (r : Record) (features : List String)
    (hsafe : ∀ f ∈ features, ∀ n, assocGet r f = some (PyVal.pint n) →
       n.natAbs < intOverflowBound) :
    rawRowX parse r features = .ok (rawRow parse features r) := by
  induction features with
  | nil => rfl
  | cons g fs ih =>
    have hg := coerceFieldX_eq_ok parse r g (fun n hn => hsafe g (by simp) n hn)
    have hfs := ih (fun f hf n hn => hsafe f (by simp [hf]) n hn)
    simp [rawRowX, hg, hfs, rawRow]

lemma rawRowX_error_of_overflow (parse : StrParse) (r : Record) (features : List String)
    (f : String) (n : ℤ) (hmem : f ∈ features)
    (hv : assocGet r f = some (PyVal.pint n)) (hn : intOverflowBound ≤ n.natAbs) :
    ∃ e, rawRowX parse r features = .error e := by
  induction features with
  | nil => cases hmem
  | cons g fs ih =>
    rcases List.mem_cons.mp hmem with rfl | hmem2
    · have hc : coerceFieldX parse r f = .error overflowMsg := by
        unfold coerceFieldX
        simp only [hv]
        simp [pyFloatX, hn]
      exact ⟨overflowMsg, by simp [rawRowX, hc]⟩
    · cases hc : coerceFieldX parse r g with
      | error e => exact ⟨e, by simp [rawRowX, hc]⟩
      | ok x =>
        obtain ⟨e, he⟩ := ih hmem2
        exact ⟨e, by simp [rawRowX, hc, he]⟩


lemma choice0_spec : ChoiceSpec choice0 := by
  intro n k hk
  refine ⟨List.length_range k, List.nodup_range k, ?_⟩
  intro i hi
  exact lt_of_lt_of_le (List.mem_range.mp hi) hk

lemma tsne0_contract : ∀ p mm r, tsne0 p mm = .ok r → r.length = mm.length := by
  intro p mm r hr
  simp only [tsne0, Except.ok.injEq] at hr
  rw [← hr]
  simp

/-- C1: for every computing projection request on a known city with a
non-empty dataset, the target's coerced feature vector is row 0 of the
assembled matrix, it is still row 0 of the matrix handed to the
projection after the sampling step, and the response's coordinate list
is the projection's output for that matrix (one point per row), so its
first coordinate is the image of the target's row. -/
theorem C1_target_row_first (parse : StrParse) (choice : ℕ → ℕ → List ℕ) (tsneFn : TsneFn)
    (env : FsEnv) (cache : List (String × TsneBody)) (city : String) (tr : Record)
    (coords : List (ℚ × ℚ))
    (hmiss : assocGet cache (cache_key city tr) = Option.none)
    (hdata : (load_city_data env city).isEmpty = false)
    (hts : tsneFn (tsneParamsFor (tsneMatrix parse choice env city tr).length)
             (tsneMatrix parse choice env city tr) = .ok coords)
    (hcontract : ∀ p mm r, tsneFn p mm = .ok r → r.length = mm.length) :
    (assembledMatrix parse (get_important_features city) tr (load_city_data env city)).head?
        = some (finalRow parse (get_important_features city) tr) ∧
    (tsneMatrix parse choice env city tr).head?
        = some (finalRow parse (get_important_features city) tr) ∧
    (generate_tsne parse choice tsneFn env cache city (some tr)).status = 200 ∧
    (generate_tsne parse choice tsneFn env cache city (some tr)).body
        = TsneBody.ok coords (record_id_of tr) ∧
    coords.length = (tsneMatrix parse choice env city tr).length ∧
    0 < coords.length := by
  have hhead : (assembledMatrix parse (get_important_features city) tr
      (load_city_data env city)).head?
        = some (finalRow parse (get_important_features city) tr) := by
    rw [assembledMatrix_eq]
    rfl
  have hmat : (tsneMatrix parse choice env city tr).head?
      = some (finalRow parse (get_important_features city) tr) := by
    unfold tsneMatrix
    rw [sampling_head, hhead]
    rw [assembledMatrix_eq]
    exact List.cons_ne_nil _ _
  have hout := generate_tsne_miss parse choice tsneFn env cache city tr hmiss hdata
  rw [hts] at hout
  have hclen := hcontract _ _ _ hts
  refine ⟨hhead, hmat, by rw [hout], by rw [hout], hclen, ?_⟩
  rw [hclen]
  cases hm : tsneMatrix parse choice env city tr with
  | nil => rw [hm] at hmat; exact absurd hmat (by simp)
  | cons a l => simp

/-- C1 witness: the Baltimore one-row instance, with the always-failing
parser, the prefix sampler and the origin-valued projection. -/
theorem C1_witness :
    (assembledMatrix parse0 (get_important_features "Baltimore") trExample
        (load_city_data envOneRec "Baltimore")).head?
      = some (finalRow parse0 (get_important_features "Baltimore") trExample) ∧
    (tsneMatrix parse0 choice0 envOneRec "Baltimore" trExample).head?
      = some (finalRow parse0 (get_important_features "Baltimore") trExample) ∧
    (generate_tsne parse0 choice0 tsne0 envOneRec [] "Baltimore" (some trExample)).status
      = 200 := by
  have h := C1_target_row_first parse0 choice0 tsne0 envOneRec [] "Baltimore" trExample
      ((tsneMatrix parse0 choice0 envOneRec "Baltimore" trExample).map
        (fun _ => ((0 : ℚ), (0 : ℚ))))
      rfl (by decide) rfl tsne0_contract
  exact ⟨h.1, h.2.1, h.2.2.1⟩

/-- C2: on a matrix of more than 5000 rows the sampling step draws
`cap - 1 = 4999` indices without replacement (via the abstract sampler,
whose uniform distribution is the library's property) from the
comparison indices `1 .. totalRows - 1` only, prepends the unchanged
target row, and yields exactly `min(cap, totalRows)` rows with the
target still first; at or below the cap the matrix is unchanged. -/
theorem C2_sampling_contract (choice : ℕ → ℕ → List ℕ) (m : List (List ℚ))
    (hc : ChoiceSpec choice) :
    (m.length ≤ maxPoints → samplingStep choice m = m) ∧
    (m.length > maxPoints →
      ∃ idx : List ℕ,
        idx = (choice (m.length - 1) (min (maxPoints - 1) (m.length - 1))).map
                (fun i => i + 1) ∧
        idx.Nodup ∧ idx.length = maxPoints - 1 ∧
        (∀ i ∈ idx, 1 ≤ i ∧ i < m.length) ∧
        samplingStep choice m = m.getD 0 [] :: idx.map (fun i => m.getD i []) ∧
        (samplingStep choice m).length = min maxPoints m.length ∧
        (samplingStep choice m).head? = some (m.getD 0 [])) := by
  refine ⟨sampling_noop choice m, ?_⟩
  intro h
  obtain ⟨hlen, hnd, hbnd⟩ :=
    hc (m.length - 1) (min (maxPoints - 1) (m.length - 1)) (min_le_right _ _)
  have hmin : min (maxPoints - 1) (m.length - 1) = maxPoints - 1 :=
    min_eq_left (by unfold maxPoints at h ⊢; omega)
  have hout : samplingStep choice m
      = m.getD 0 []
        :: ((choice (m.length - 1) (min (maxPoints - 1) (m.length - 1))).map
              (fun i => i + 1)).map (fun i => m.getD i []) := by
    simp [samplingStep, h, selectRows]
  refine ⟨_, rfl, ?_, ?_, ?_, hout, ?_, ?_⟩
  · exact hnd.map fun a b hab => by omega
  · rw [List.length_map, hlen, hmin]
  · intro i hi
    rw [List.mem_map] at hi
    obtain ⟨j, hj, rfl⟩ := hi
    have := hbnd j hj
    omega
  · rw [hout, List.length_cons, List.length_map, List.length_map, hlen, hmin,
        min_eq_left (le_of_lt h)]
    unfold maxPoints
    omega
  · rw [hout]
    rfl

/-- C2 witness: a 5001-row matrix with the prefix sampler. -/
theorem C2_witness :
    ChoiceSpec choice0 ∧
    (List.replicate 5001 ([0] : List ℚ)).length > maxPoints ∧
    (∃ idx : List ℕ,
      idx = (choice0 ((List.replicate 5001 ([0] : List ℚ)).length - 1)
               (min (maxPoints - 1) ((List.replicate 5001 ([0] : List ℚ)).length - 1))).map
              (fun i => i + 1) ∧
      idx.Nodup ∧ idx.length = maxPoints - 1 ∧
      (∀ i ∈ idx, 1 ≤ i ∧ i < (List.replicate 5001 ([0] : List ℚ)).length) ∧
      samplingStep choice0 (List.replicate 5001 ([0] : List ℚ))
        = (List.replicate 5001 ([0] : List ℚ)).getD 0 []
            :: idx.map (fun i => (List.replicate 5001 ([0] : List ℚ)).getD i []) ∧
      (samplingStep choice0 (List.replicate 5001 ([0] : List ℚ))).length
        = min maxPoints (List.replicate 5001 ([0] : List ℚ)).length ∧
      (samplingStep choice0 (List.replicate 5001 ([0] : List ℚ))).head?
        = some ((List.replicate 5001 ([0] : List ℚ)).getD 0 [])) := by
  refine ⟨choice0_spec, by norm_num [maxPoints], ?_⟩
  exact (C2_sampling_contract choice0 _ choice0_spec).2 (by norm_num [maxPoints])


/-- C3 counterexample: CPython's `float()` raises `OverflowError` for
an integer at or beyond `2^1024 - 2^970`, and the coercion loop's
`except (ValueError, TypeError)` does not catch it, so for the target
`{"KDPI": 10^400}` assembling the Baltimore feature vector raises
instead of producing a vector — refuting "matrix assembly is total ...
no exception is raised" (the exception propagates to the route-level
handler, which answers 500). -/
theorem C3_counterexample :
    hugeInt = 10 ^ 400 ∧
    intOverflowBound = 2 ^ 1024 - 2 ^ 970 ∧
    assocGet trHuge "KDPI" = some (PyVal.pint hugeInt) ∧
    "KDPI" ∈ get_important_features "Baltimore" ∧
    pyFloatX parse0 (PyVal.pint hugeInt) = .error PyErr.overflow ∧
    coerceFieldX parse0 trHuge "KDPI" = .error overflowMsg ∧
    rawRowX parse0 trHuge (get_important_features "Baltimore") = .error overflowMsg :=
  ⟨hugeInt_eq, intOverflowBound_eq, rfl, by decide, rfl, rfl, rfl⟩

/-- C3 as amended: for every record whose present integer fields are
within IEEE-double range (`|n| < 2^1024 - 2^970`), matrix assembly
succeeds (the faithful coercion agrees with the total model) and
produces a finite vector of exactly `features.length` rational entries,
each the `nan_to_num` image of its field's coercion, with every caught
parse failure (missing key, null, unparsable string) coerced to zero
and NaN replaced by zero; a present integer field at or beyond that
bound makes the row raise `OverflowError`, which the inner
`except (ValueError, TypeError)` does not catch. -/
theorem C3_assembly_in_range (parse : StrParse) (features : List String) (r : Record) :
    ((∀ f ∈ features, ∀ n, assocGet r f = some (PyVal.pint n) →
        n.natAbs < intOverflowBound) →
      rawRowX parse r features = .ok (rawRow parse features r)) ∧
    (finalRow parse features r).length = features.length ∧
    (∀ i : ℕ, (finalRow parse features r)[i]?
        = (features[i]?).map (fun f => nanToNum (coerceField parse r f))) ∧
    (∀ f, assocGet r f = Option.none → coerceField parse r f = .finite 0) ∧
    (∀ f, assocGet r f = some PyVal.pnone → coerceField parse r f = .finite 0) ∧
    (∀ f s, assocGet r f = some (PyVal.pstr s) → parse s = Option.none →
       coerceField parse r f = .finite 0) ∧
    (∀ f, coerceField parse r f = PyFloat.nan → nanToNum (coerceField parse r f) = 0) ∧
    (∀ f n, f ∈ features → assocGet r f = some (PyVal.pint n) →
       intOverflowBound ≤ n.natAbs → ∃ e, rawRowX parse r features = .error e) := by
  refine ⟨fun hsafe => rawRowX_eq_ok parse r features hsafe,
          by simp [finalRow, rawRow], ?_, ?_, ?_, ?_, ?_, ?_⟩
  · intro i
    simp only [finalRow, rawRow, List.getElem?_map, Option.map_map]
    cases features[i]? <;> rfl
  · intro f hf
    simp [coerceField, hf]
  · intro f hf
    simp [coerceField, hf, pyFloat]
  · intro f sv hf hp
    simp [coerceField, hf, pyFloat, hp]
  · intro f hf
    rw [hf]
    rfl
  · intro f n hmem hv hn
    exact rawRowX_error_of_overflow parse r features f n hmem hv hn

/-- C3 witness: a record with a missing key, a null, an unparsable
string and a NaN assembles successfully with every such field zeroed,
while the out-of-range-integer record raises. -/
theorem C3_witness :
    rawRowX parse0 recProbe fsProbe = .ok (rawRow parse0 fsProbe recProbe) ∧
    (finalRow parse0 fsProbe recProbe).length = fsProbe.length ∧
    coerceField parse0 recProbe "A" = .finite 0 ∧
    coerceField parse0 recProbe "B" = .finite 0 ∧
    coerceField parse0 recProbe "C" = .finite 0 ∧
    nanToNum (coerceField parse0 recProbe "D") = 0 ∧
    (∃ e, rawRowX parse0 trHuge (get_important_features "Baltimore") = .error e) ∧
    rawRowX parse0 trHuge (get_important_features "Baltimore") = .error overflowMsg := by
  obtain ⟨h1, h2, h3, h4, h5, h6, h7, _⟩ := C3_assembly_in_range parse0 fsProbe recProbe
  obtain ⟨_, _, _, _, _, _, _, h8⟩ :=
    C3_assembly_in_range parse0 (get_important_features "Baltimore") trHuge
  refine ⟨h1 ?_, h2, h4 "A" (by decide), h5 "B" (by decide),
          h6 "C" "oops" (by decide) rfl, h7 "D" (by decide),
          h8 "KDPI" hugeInt (by decide) rfl (by decide), rfl⟩
  intro f hf n hn
  obtain ⟨p, hp, hv⟩ := assocGet_some_mem recProbe f (PyVal.pint n) hn
  fin_cases hp <;> simp at hv

/-- C4 counterexample: `Baltimore` has a static mapping entry, its file
does not exist (empty data directory, so no substring match either), yet
the endpoint returns 500, not the 404 the claim requires for a mapped
file that does not exist. -/
theorem C4_counterexample :
    assocGet file_mapping "Baltimore" = some "baltimore_reference.csv" ∧
    findMatchingFile "Baltimore" [] = Option.none ∧
    (get_reference_data envEmptyDir "Baltimore").1 = 500 ∧
    (get_reference_data envEmptyDir "Baltimore").1 ≠ 404 := by
  decide

/-- C4 as amended: 404 is returned exactly when no file NAME resolves
(city unmapped and no substring match); when the city is mapped but its
file is absent and unmatched, the stale mapped name is kept, the read of
that name fails, and the endpoint returns 500 — so, given a successful
directory listing, 500 occurs if and only if reading the resolved name
fails, and a resolved name that reads successfully yields 200. -/
theorem C4_resolution_contract (env : FsEnv) (city : String) (files : List String)
    (hls : env.listDir = .ok files) :
    (assocGet file_mapping city = Option.none → findMatchingFile city files = Option.none →
       resolveFileName city files = Option.none) ∧
    (resolveFileName city files = Option.none →
       get_reference_data env city
         = (404, .err ("Reference data file not found for " ++ city))) ∧
    (∀ name, resolveFileName city files = some name →
       ((get_reference_data env city).1 = 500 ↔ ∃ e, env.readCsv name = .error e)) ∧
    (∀ name rs, resolveFileName city files = some name → env.readCsv name = .ok rs →
       get_reference_data env city = (200, .rows rs)) := by
  refine ⟨?_, ?_, ?_, ?_⟩
  · intro hm hf
    simp [resolveFileName, hm, hf]
  · intro hr
    simp [get_reference_data, hls, hr]
  · intro name hr
    cases hcsv : env.readCsv name with
    | ok rs =>
      simp [get_reference_data, hls, hr, hcsv]
    | error e =>
      have hgoal : (get_reference_data env city).1 = 500 := by
        simp [get_reference_data, hls, hr, hcsv]
      exact ⟨fun _ => ⟨e, rfl⟩, fun _ => hgoal⟩
  · intro name rs hr hcsv
    simp [get_reference_data, hls, hr, hcsv]

/-- C4 witness: the spec's own example — `Atlantis` is unmapped, nothing
matches, the endpoint answers 404 naming the city. -/
theorem C4_witness :
    get_reference_data envEmptyDir "Atlantis"
      = (404, .err ("Reference data file not found for " ++ "Atlantis")) :=
  (C4_resolution_contract envEmptyDir "Atlantis" [] rfl).2.1 (by decide)

/-- C5 counterexample: the cache key is the bare string
`f"{city}_{record_id}"`, so the distinct pairs `("Baltimore", "x_y")`
and `("Baltimore_x", "y")` share the key `Baltimore_x_y`: after the
first request computes and stores, the second request — a different
city and a different identifier — returns the stored body without
invoking the projection, refuting "distinct (city, identifier) pairs
never share a cache entry". -/
theorem C5_counterexample :
    (("Baltimore", "x_y") ≠ (("Baltimore_x" : String), ("y" : String))) ∧
    record_id_of trXY = PyVal.pstr "x_y" ∧
    record_id_of trY = PyVal.pstr "y" ∧
    cache_key "Baltimore" trXY = cache_key "Baltimore_x" trY ∧
    collideCall1.status = 200 ∧ collideCall1.invoked = true ∧
    collideCall2.status = 200 ∧ collideCall2.invoked = false ∧
    collideCall2.body = collideCall1.body := by
  decide

/-- C5 as amended: the cache is keyed by the concatenated string
`city + "_" + str(recordId)`; a request whose key is present returns the
stored body with no recomputation and an unchanged cache, and on a miss
a successful (status 200) computation stores its response under that key
before returning.  Distinct (city, identifier) pairs share an entry
exactly when their key strings coincide, which underscores in the city
name or identifier make possible. -/
theorem C5_cache_key_behaviour (parse : StrParse) (choice : ℕ → ℕ → List ℕ)
    (tsneFn : TsneFn) (env : FsEnv) (cache : List (String × TsneBody))
    (city : String) (tr : Record) :
    (∀ b, assocGet cache (cache_key city tr) = some b →
       generate_tsne parse choice tsneFn env cache city (some tr)
         = ⟨200, b, cache, false⟩) ∧
    (assocGet cache (cache_key city tr) = Option.none →
       (generate_tsne parse choice tsneFn env cache city (some tr)).status = 200 →
       (generate_tsne parse choice tsneFn env cache city (some tr)).cache
         = (cache_key city tr,
            (generate_tsne parse choice tsneFn env cache city (some tr)).body) :: cache) := by
  constructor
  · intro b hb
    exact generate_tsne_hit parse choice tsneFn env cache city tr b hb
  · intro hmiss
    cases hdata : (load_city_data env city).isEmpty with
    | true =>
      rw [generate_tsne_empty parse choice tsneFn env cache city tr hmiss hdata]
      intro h
      simp at h
    | false =>
      rw [generate_tsne_miss parse choice tsneFn env cache city tr hmiss hdata]
      cases hts : tsneFn (tsneParamsFor (tsneMatrix parse choice env city tr).length)
          (tsneMatrix parse choice env city tr) with
      | error e =>
        intro h
        simp at h
      | ok coords =>
        intro _
        rfl

/-- C5 witness: a repeated identical request (same city `Baltimore`,
same identifier `42`) served from the cache, unchanged, without
recomputation. -/
theorem C5_witness :
    assocGet cacheHit (cache_key "Baltimore" trExample)
      = some (TsneBody.ok [((1 : ℚ), (2 : ℚ))] (PyVal.pint 42)) ∧
    generate_tsne parse0 choice0 tsne0 envOneRec cacheHit "Baltimore" (some trExample)
      = ⟨200, TsneBody.ok [((1 : ℚ), (2 : ℚ))] (PyVal.pint 42), cacheHit, false⟩ := by
  refine ⟨by decide, ?_⟩
  exact (C5_cache_key_behaviour parse0 choice0 tsne0 envOneRec cacheHit "Baltimore"
    trExample).1 _ (by decide)

/-- C6: every computing projection run invokes the projection with
2 components, perplexity `min(30, rowCount - 1)`, random seed 42 and
1000 iterations, and the successful response carries the projection's
output for that matrix together with the target's identifier; under the
library contract the output has one 2D point per input row. -/
theorem C6_projection_invocation (parse : StrParse) (choice : ℕ → ℕ → List ℕ)
    (tsneFn : TsneFn) (env : FsEnv) (cache : List (String × TsneBody))
    (city : String) (tr : Record) (coords : List (ℚ × ℚ))
    (hmiss : assocGet cache (cache_key city tr) = Option.none)
    (hdata : (load_city_data env city).isEmpty = false)
    (hts : tsneFn (tsneParamsFor (tsneMatrix parse choice env city tr).length)
             (tsneMatrix parse choice env city tr) = .ok coords)
    (hcontract : ∀ p mm r, tsneFn p mm = .ok r → r.length = mm.length) :
    tsneParamsFor (tsneMatrix parse choice env city tr).length
      = { nComponents := 2,
          perplexity := min 30 ((tsneMatrix parse choice env city tr).length - 1),
          randomState := 42, nIter := 1000 } ∧
    generate_tsne parse choice tsneFn env cache city (some tr)
      = ⟨200, .ok coords (record_id_of tr),
         (cache_key city tr, TsneBody.ok coords (record_id_of tr)) :: cache, true⟩ ∧
    coords.length = (tsneMatrix parse choice env city tr).length := by
  have hout := generate_tsne_miss parse choice tsneFn env cache city tr hmiss hdata
  rw [hts] at hout
  exact ⟨rfl, hout, hcontract _ _ _ hts⟩

/-- C6 witness: the spec's example — a ten-row Baltimore dataset and the
target `{"PTR_SEQUENCE_NUM": 42, "CREAT_DON": "1.2", "AGE_DON": "55"}`
yield status 200, 11 coordinates, `recordId` 42, and perplexity
`min(30, 11 - 1) = 10`. -/
theorem C6_witness :
    (generate_tsne parse0 choice0 tsne0 envTenRec [] "Baltimore" (some trExample)).status
      = 200 ∧
    (generate_tsne parse0 choice0 tsne0 envTenRec [] "Baltimore" (some trExample)).body
      = TsneBody.ok ((tsneMatrix parse0 choice0 envTenRec "Baltimore" trExample).map
          (fun _ => ((0 : ℚ), (0 : ℚ)))) (record_id_of trExample) ∧
    record_id_of trExample = PyVal.pint 42 ∧
    ((tsneMatrix parse0 choice0 envTenRec "Baltimore" trExample).map
        (fun _ => ((0 : ℚ), (0 : ℚ)))).length = 11 ∧
    tsneParamsFor (tsneMatrix parse0 choice0 envTenRec "Baltimore" trExample).length
      = ⟨2, 10, 42, 1000⟩ := by
  have h := C6_projection_invocation parse0 choice0 tsne0 envTenRec [] "Baltimore" trExample
      ((tsneMatrix parse0 choice0 envTenRec "Baltimore" trExample).map
        (fun _ => ((0 : ℚ), (0 : ℚ))))
      rfl (by decide) rfl tsne0_contract
  refine ⟨by rw [h.2.1], by rw [h.2.1], by decide, by decide, by decide⟩


/-- C7 counterexample: `Atlantis` is outside the three configured
cities and its feature list is empty, yet a projection request for it
whose body lacks `targetRecord` returns status 500 (from the
`AttributeError` at line 18), refuting "never status 500". -/
theorem C7_counterexample :
    (("Atlantis" : String) ≠ "Baltimore" ∧ ("Atlantis" : String) ≠ "Boston" ∧
       ("Atlantis" : String) ≠ "LA") ∧
    get_important_features "Atlantis" = [] ∧
    (generate_tsne parse0 choice0 tsne0 envOneRec [] "Atlantis" Option.none).status = 500 := by
  decide

/-- C7 as amended: for every city outside the three configured ones,
feature selection returns the empty list (not an error), and a
projection request that carries a target record and whose cache key is
not already populated returns 404 with an error body via the empty
dataset (a body without a target record returns 500 for any city, and a
colliding pre-populated cache key can return 200). -/
theorem C7_unknown_city_404 (parse : StrParse) (choice : ℕ → ℕ → List ℕ)
    (tsneFn : TsneFn) (env : FsEnv) (cache : List (String × TsneBody))
    (city : String) (tr : Record)
    (hB : city ≠ "Baltimore") (hBo : city ≠ "Boston") (hLA : city ≠ "LA")
    (hmiss : assocGet cache (cache_key city tr) = Option.none) :
    get_important_features city = [] ∧
    load_city_data env city = [] ∧
    generate_tsne parse choice tsneFn env cache city (some tr)
      = ⟨404, .err ("No data available for " ++ city), cache, false⟩ := by
  have hf : assocGet feature_map city = Option.none := by
    apply assocGet_eq_none
    intro p hp
    fin_cases hp
    · exact fun h => hB h.symm
    · exact fun h => hBo h.symm
    · exact fun h => hLA h.symm
  have hcf : assocGet city_file_map city = Option.none := by
    apply assocGet_eq_none
    intro p hp
    fin_cases hp
    · exact fun h => hB h.symm
    · exact fun h => hLA h.symm
    · exact fun h => hBo h.symm
  have hld : load_city_data env city = [] := by
    simp [load_city_data, hcf]
  refine ⟨by simp [get_important_features, hf], hld, ?_⟩
  exact generate_tsne_empty parse choice tsneFn env cache city tr hmiss (by rw [hld]; rfl)

/-- C7 witness: an `Atlantis` request carrying a target record, against
an intact filesystem, answered 404 with an error body. -/
theorem C7_witness :
    get_important_features "Atlantis" = [] ∧
    load_city_data envOneRec "Atlantis" = [] ∧
    generate_tsne parse0 choice0 tsne0 envOneRec [] "Atlantis" (some trNoId2)
      = ⟨404, .err ("No data available for " ++ "Atlantis"), [], false⟩ :=
  C7_unknown_city_404 parse0 choice0 tsne0 envOneRec [] "Atlantis" trNoId2
    (by decide) (by decide) (by decide) rfl

/-- C8: `load_city_data` is total (the embedding returns a list in every
case) and every failure mode — unmapped city, missing file, read or
parse failure — yields `[]`; an empty load makes the projection
endpoint answer 404 with `No data available`, never 500. -/
theorem C8_load_failures_yield_404 (env : FsEnv) (city : String) :
    (assocGet city_file_map city = Option.none → load_city_data env city = []) ∧
    (∀ p, assocGet city_file_map city = some p → env.pathExists p = false →
       load_city_data env city = []) ∧
    (∀ p e, assocGet city_file_map city = some p → env.pathExists p = true →
       env.readCsv p = .error e → load_city_data env city = []) ∧
    (∀ (parse : StrParse) (choice : ℕ → ℕ → List ℕ) (tsneFn : TsneFn)
       (cache : List (String × TsneBody)) (tr : Record),
       load_city_data env city = [] →
       assocGet cache (cache_key city tr) = Option.none →
       generate_tsne parse choice tsneFn env cache city (some tr)
         = ⟨404, .err ("No data available for " ++ city), cache, false⟩) := by
  refine ⟨?_, ?_, ?_, ?_⟩
  · intro hm
    simp [load_city_data, hm]
  · intro p hm hex
    simp [load_city_data, hm, hex]
  · intro p e hm hex hcsv
    simp [load_city_data, hm, hex, hcsv]
  · intro parse choice tsneFn cache tr hld hmiss
    exact generate_tsne_empty parse choice tsneFn env cache city tr hmiss
      (by rw [hld]; rfl)

/-- C8 witness: the Baltimore file exists but reading it raises; the
load is empty and the endpoint answers 404. -/
theorem C8_witness :
    load_city_data envReadErr "Baltimore" = [] ∧
    generate_tsne parse0 choice0 tsne0 envReadErr [] "Baltimore" (some trExample)
      = ⟨404, .err ("No data available for " ++ "Baltimore"), [], false⟩ := by
  have h := C8_load_failures_yield_404 envReadErr "Baltimore"
  have hld := h.2.2.1 "data/baltimore_reference.csv" "ParserError" (by decide) (by decide) rfl
  exact ⟨hld, h.2.2.2 parse0 choice0 tsne0 [] trExample hld rfl⟩

/-- C9: a target record without `PTR_SEQUENCE_NUM` gets the identifier
string `unknown`, the response carries `recordId = "unknown"`, and all
identifier-less requests for a city share the single key
`city + "_unknown"`: after one success, any later identifier-less
request for that city — whatever its other fields, parser, sampler,
projection or filesystem — returns the first computed body without
invoking the projection. -/
theorem C9_unknown_id_shared_cache (parse : StrParse) (choice : ℕ → ℕ → List ℕ)
    (tsneFn : TsneFn) (env : FsEnv) (cache : List (String × TsneBody)) (city : String)
    (tr1 tr2 : Record) (coords : List (ℚ × ℚ))
    (h1 : assocGet tr1 "PTR_SEQUENCE_NUM" = Option.none)
    (h2 : assocGet tr2 "PTR_SEQUENCE_NUM" = Option.none)
    (hmiss : assocGet cache (cache_key city tr1) = Option.none)
    (hdata : (load_city_data env city).isEmpty = false)
    (hts : tsneFn (tsneParamsFor (tsneMatrix parse choice env city tr1).length)
             (tsneMatrix parse choice env city tr1) = .ok coords) :
    record_id_of tr1 = PyVal.pstr "unknown" ∧
    cache_key city tr1 = city ++ "_" ++ "unknown" ∧
    cache_key city tr2 = cache_key city tr1 ∧
    generate_tsne parse choice tsneFn env cache city (some tr1)
      = ⟨200, .ok coords (PyVal.pstr "unknown"),
         (cache_key city tr1, TsneBody.ok coords (PyVal.pstr "unknown")) :: cache, true⟩ ∧
    ∀ (parse2 : StrParse) (choice2 : ℕ → ℕ → List ℕ) (tsneFn2 : TsneFn) (env2 : FsEnv),
      generate_tsne parse2 choice2 tsneFn2 env2
          ((cache_key city tr1, TsneBody.ok coords (PyVal.pstr "unknown")) :: cache)
          city (some tr2)
        = ⟨200, TsneBody.ok coords (PyVal.pstr "unknown"),
           (cache_key city tr1, TsneBody.ok coords (PyVal.pstr "unknown")) :: cache,
           false⟩ := by
  have hrid1 : record_id_of tr1 = PyVal.pstr "unknown" := by
    simp [record_id_of, h1]
  have hrid2 : record_id_of tr2 = PyVal.pstr "unknown" := by
    simp [record_id_of, h2]
  have hkey1 : cache_key city tr1 = city ++ "_" ++ "unknown" := by
    rw [cache_key, hrid1]
    rfl
  have hkey2 : cache_key city tr2 = cache_key city tr1 := by
    rw [cache_key, cache_key, hrid1, hrid2]
  have hout := generate_tsne_miss parse choice tsneFn env cache city tr1 hmiss hdata
  rw [hts] at hout
  rw [hrid1] at hout
  refine ⟨hrid1, hkey1, hkey2, hout, ?_⟩
  intro parse2 choice2 tsneFn2 env2
  exact generate_tsne_hit parse2 choice2 tsneFn2 env2 _ city tr2 _
    (assocGet_cons_eq _ _ _ _ hkey2)

/-- C9 witness: two identifier-less Baltimore targets with different
field values; the second request is served from the first's cache entry
even through a broken filesystem and a different parser. -/
theorem C9_witness :
    record_id_of trNoId = PyVal.pstr "unknown" ∧
    generate_tsne parse0 choice0 tsne0 envOneRec [] "Baltimore" (some trNoId)
      = ⟨200, .ok c9coords (PyVal.pstr "unknown"),
         [(cache_key "Baltimore" trNoId, TsneBody.ok c9coords (PyVal.pstr "unknown"))],
         true⟩ ∧
    generate_tsne parseEx choice0 tsne0 envEmptyDir
        [(cache_key "Baltimore" trNoId, TsneBody.ok c9coords (PyVal.pstr "unknown"))]
        "Baltimore" (some trNoId2)
      = ⟨200, TsneBody.ok c9coords (PyVal.pstr "unknown"),
         [(cache_key "Baltimore" trNoId, TsneBody.ok c9coords (PyVal.pstr "unknown"))],
         false⟩ := by
  have h := C9_unknown_id_shared_cache parse0 choice0 tsne0 envOneRec [] "Baltimore"
      trNoId trNoId2 c9coords (by decide) (by decide) rfl (by decide) rfl
  exact ⟨h.1, h.2.2.2.1, h.2.2.2.2 parseEx choice0 tsne0 envEmptyDir⟩

/-- C10: a request whose body has no usable `targetRecord` returns 500
with a JSON error body and leaves the cache unchanged; every non-200
response leaves the cache unchanged; and whenever the cache changes the
response was a successful (200) computation — so entries are stored only
on success. -/
theorem C10_missing_target (parse : StrParse) (choice : ℕ → ℕ → List ℕ)
    (tsneFn : TsneFn) (env : FsEnv) (cache : List (String × TsneBody)) (city : String) :
    (generate_tsne parse choice tsneFn env cache city Option.none
       = ⟨500, .err noneGetMsg, cache, false⟩) ∧
    (∀ tr, (generate_tsne parse choice tsneFn env cache city (some tr)).status ≠ 200 →
       (generate_tsne parse choice tsneFn env cache city (some tr)).cache = cache) ∧
    (∀ tr, (generate_tsne parse choice tsneFn env cache city (some tr)).cache ≠ cache →
       (generate_tsne parse choice tsneFn env cache city (some tr)).status = 200
         ∧ (generate_tsne parse choice tsneFn env cache city (some tr)).invoked = true) := by
  have hbr : ∀ tr : Record,
      (generate_tsne parse choice tsneFn env cache city (some tr)).status = 200
        ∧ (generate_tsne parse choice tsneFn env cache city (some tr)).invoked = true
        ∧ (generate_tsne parse choice tsneFn env cache city (some tr)).cache
            = (cache_key city tr,
               (generate_tsne parse choice tsneFn env cache city (some tr)).body) :: cache
      ∨ (generate_tsne parse choice tsneFn env cache city (some tr)).cache = cache := by
    intro tr
    cases hhit : assocGet cache (cache_key city tr) with
    | some b =>
      rw [generate_tsne_hit parse choice tsneFn env cache city tr b hhit]
      right
      rfl
    | none =>
      cases hdata : (load_city_data env city).isEmpty with
      | true =>
        rw [generate_tsne_empty parse choice tsneFn env cache city tr hhit hdata]
        right
        rfl
      | false =>
        rw [generate_tsne_miss parse choice tsneFn env cache city tr hhit hdata]
        cases hts : tsneFn (tsneParamsFor (tsneMatrix parse choice env city tr).length)
            (tsneMatrix parse choice env city tr) with
        | error e =>
          right
          rfl
        | ok coords =>
          left
          exact ⟨rfl, rfl, rfl⟩
  refine ⟨rfl, ?_, ?_⟩
  · intro tr hst
    rcases hbr tr with ⟨h200, _, _⟩ | hsame
    · exact absurd h200 hst
    · exact hsame
  · intro tr hch
    rcases hbr tr with ⟨h200, hinv, _⟩ | hsame
    · exact ⟨h200, hinv⟩
    · exact absurd hsame hch

/-- C10 witness: a body without `targetRecord` answered 500 with the
cache untouched, and a 404 response likewise leaving the cache
unchanged. -/
theorem C10_witness :
    generate_tsne parse0 choice0 tsne0 envOneRec [] "Atlantis" Option.none
      = ⟨500, TsneBody.err noneGetMsg, [], false⟩ ∧
    (generate_tsne parse0 choice0 tsne0 envOneRec [] "Atlantis" (some trNoId2)).status
      ≠ 200 ∧
    (generate_tsne parse0 choice0 tsne0 envOneRec [] "Atlantis" (some trNoId2)).cache
      = [] := by
  have h := C10_missing_target parse0 choice0 tsne0 envOneRec [] "Atlantis"
  exact ⟨h.1, by decide, h.2.1 trNoId2 (by decide)⟩

end Opo
